import Mathlib

/-!
Shallow embedding of the `identity` service (Go, GORM over PostgreSQL).

The embedding covers the feature-flag assignment subsystem:
* the relational store (`users`, `feature_flags`, `user_feature_flags`)
  with its uniqueness and foreign-key constraints and GORM's soft-delete
  convention (a `deleted_at` timestamp, modelled as a `deleted : Bool` flag;
  reads issued through GORM add `deleted_at IS NULL`, while the raw SQL
  constraints cover every row, deleted or not);
* the repository layer (`internal/repository`), one Lean function per Go
  method, returning `Except RepoError`;
* the service layer (`internal/service`), one Lean function per Go method,
  built from three error-routing combinators that mirror the three error
  handling idioms repeated in the Go source;
* the pagination helpers of `internal/service/dto` (`GetOffset`, `GetLimit`,
  `CalculateTotalPages`), over `Int` (Go `int` arithmetic; the values in
  play are far from 2^63 so wraparound never occurs and is not modelled).

Timestamp columns (`created_at`, `updated_at`, `last_login`) are not part of
any verified claim and are omitted from the record types; the DTO response
conversion is then the identity on the modelled fields, so service results
are stated directly over the model records.
-/

/-- Failures a repository call can report.  `recordNotFound` is
`gorm.ErrRecordNotFound`; `uniqueViolation` and `foreignKeyViolation` are the
storage-level constraint failures of the SQL schema; `connectionFailed`
stands for any other storage failure (connectivity, timeout, ...). -/
inductive RepoError where
  | recordNotFound
  | uniqueViolation
  | foreignKeyViolation
  | connectionFailed
deriving DecidableEq, Repr

/-- Errors surfaced by the service layer.  The Go code returns fresh string
errors ("user not found", "email already exists", ...) or wraps the
repository error with `fmt.Errorf("...: %w", err)`; each distinct string is a
constructor and wrapping keeps the underlying `RepoError`. -/
inductive SvcError where
  | userNotFound
  | flagNotFound
  | emailAlreadyExists
  | keyAlreadyExists
  | alreadyAssigned
  | wrapped (e : RepoError)
deriving DecidableEq, Repr

/-- A row of the `users` table (`internal/model`, `User`).  `deleted` models
`deleted_at IS NOT NULL`. -/
structure User where
  id : Nat
  name : String
  email : String
  enabled : Bool
  deleted : Bool
deriving DecidableEq, Repr

/-- A row of the `feature_flags` table (`internal/model`, `FeatureFlag`). -/
structure FeatureFlag where
  id : Nat
  key : String
  description : String
  enabled : Bool
  deleted : Bool
deriving DecidableEq, Repr

/-- A row of the `user_feature_flags` junction table
(`internal/model`, `UserFeatureFlag`); it has no `deleted_at` column. -/
structure Assignment where
  userId : Nat
  flagId : Nat
deriving DecidableEq, Repr

/-- The relational store.  `nextUserId` / `nextFlagId` model the `SERIAL`
primary-key sequences. -/
structure Store where
  users : List User
  flags : List FeatureFlag
  assignments : List Assignment
  nextUserId : Nat
  nextFlagId : Nat
deriving DecidableEq, Repr

/-- A freshly migrated, empty database. -/
def emptyStore : Store :=
  { users := [], flags := [], assignments := [], nextUserId := 1, nextFlagId := 1 }

/-- GORM's `First(...)`: the first matching row, or `gorm.ErrRecordNotFound`. -/
def firstOrNotFound {α : Type} (o : Option α) : Except RepoError α :=
  match o with
  | some a => Except.ok a
  | none => Except.error RepoError.recordNotFound

/-- `userRepository.GetByID`: `First(&user, id)`; soft delete adds
`deleted_at IS NULL`. -/
def userRepoGetByID (s : Store) (id : Nat) : Except RepoError User :=
  firstOrNotFound (s.users.find? (fun u => u.id == id && !u.deleted))

/-- `userRepository.GetByEmail`: `Where("email = ?", email).First(&user)`;
soft delete adds `deleted_at IS NULL`. -/
def userRepoGetByEmail (s : Store) (email : String) : Except RepoError User :=
  firstOrNotFound (s.users.find? (fun u => u.email == email && !u.deleted))

/-- `userRepository.Create`: `INSERT INTO users ...`.  The SQL unique index
on `email` covers every row, soft-deleted rows included, so the insert fails
whenever any row carries the email. -/
def userRepoCreate (s : Store) (name email : String) (enabled : Bool) :
    Except RepoError (Store × User) :=
  if s.users.any (fun u => u.email == email) then
    Except.error RepoError.uniqueViolation
  else
    let u : User := { id := s.nextUserId, name := name, email := email,
                      enabled := enabled, deleted := false }
    Except.ok ({ s with users := s.users ++ [u], nextUserId := s.nextUserId + 1 }, u)

/-- `userRepository.Update`: `Save(user)` issues
`UPDATE users SET ... WHERE id = ? AND deleted_at IS NULL`.  Updating zero
rows is not an error; writing an email held by any other row (deleted or
not) violates the unique index. -/
def userRepoUpdate (s : Store) (user : User) : Except RepoError Store :=
  if s.users.any (fun u => u.id == user.id && !u.deleted) then
    if s.users.any (fun u => u.id != user.id && u.email == user.email) then
      Except.error RepoError.uniqueViolation
    else
      Except.ok { s with
        users := s.users.map (fun u => if u.id == user.id && !u.deleted then user else u) }
  else Except.ok s

/-- `userRepository.Delete`: GORM soft delete issues
`UPDATE users SET deleted_at = now() WHERE id = ? AND deleted_at IS NULL`.
Because this is an UPDATE and never a DELETE, the `ON DELETE CASCADE`
foreign keys of `user_feature_flags` do not fire: the assignment rows are
left untouched. -/
def userRepoDelete (s : Store) (id : Nat) : Except RepoError Store :=
  Except.ok { s with
    users := s.users.map (fun u =>
      if u.id == id && !u.deleted then { u with deleted := true } else u) }

/-- `featureFlagRepository.GetByID`. -/
def ffRepoGetByID (s : Store) (id : Nat) : Except RepoError FeatureFlag :=
  firstOrNotFound (s.flags.find? (fun f => f.id == id && !f.deleted))

/-- `featureFlagRepository.GetByKey`. -/
def ffRepoGetByKey (s : Store) (key : String) : Except RepoError FeatureFlag :=
  firstOrNotFound (s.flags.find? (fun f => f.key == key && !f.deleted))

/-- `featureFlagRepository.Create`: the unique index on `key` covers every
row, soft-deleted rows included. -/
def ffRepoCreate (s : Store) (key description : String) (enabled : Bool) :
    Except RepoError (Store × FeatureFlag) :=
  if s.flags.any (fun f => f.key == key) then
    Except.error RepoError.uniqueViolation
  else
    let f : FeatureFlag := { id := s.nextFlagId, key := key, description := description,
                             enabled := enabled, deleted := false }
    Except.ok ({ s with flags := s.flags ++ [f], nextFlagId := s.nextFlagId + 1 }, f)

/-- `featureFlagRepository.Delete`: soft delete, exactly as for users; the
cascading foreign keys never fire. -/
def ffRepoDelete (s : Store) (id : Nat) : Except RepoError Store :=
  Except.ok { s with
    flags := s.flags.map (fun f =>
      if f.id == id && !f.deleted then { f with deleted := true } else f) }

/-- `userFeatureFlagRepository.AssignFeatureFlagToUser`: a plain INSERT into
`user_feature_flags`.  The composite primary key rejects a duplicate pair;
the foreign keys require a `users` / `feature_flags` row with the given id
(a soft-deleted row still satisfies the foreign key). -/
def uffRepoAssign (s : Store) (userId flagId : Nat) : Except RepoError Store :=
  if s.assignments.any (fun a => a.userId == userId && a.flagId == flagId) then
    Except.error RepoError.uniqueViolation
  else if !(s.users.any (fun u => u.id == userId)) then
    Except.error RepoError.foreignKeyViolation
  else if !(s.flags.any (fun f => f.id == flagId)) then
    Except.error RepoError.foreignKeyViolation
  else
    Except.ok { s with assignments := s.assignments ++ [⟨userId, flagId⟩] }

/-- `userFeatureFlagRepository.UnassignFeatureFlagFromUser`: a hard DELETE
of the matching rows (the junction table has no `deleted_at`); deleting zero
rows is not an error. -/
def uffRepoUnassign (s : Store) (userId flagId : Nat) : Except RepoError Store :=
  Except.ok { s with
    assignments := s.assignments.filter (fun a => !(a.userId == userId && a.flagId == flagId)) }

/-- `userFeatureFlagRepository.IsFeatureFlagAssignedToUser`: `COUNT(*)` over
the junction rows for the pair, compared with `0`. -/
def uffRepoIsAssigned (s : Store) (userId flagId : Nat) : Except RepoError Bool :=
  Except.ok (s.assignments.any (fun a => a.userId == userId && a.flagId == flagId))

/-- `userFeatureFlagRepository.GetUserFeatureFlags`: join of `feature_flags`
with the junction rows of the user; GORM adds
`feature_flags.deleted_at IS NULL` for the soft-deletable model. -/
def uffRepoGetUserFeatureFlags (s : Store) (userId : Nat) :
    Except RepoError (List FeatureFlag) :=
  Except.ok (s.flags.filter (fun f =>
    !f.deleted && s.assignments.any (fun a => a.userId == userId && a.flagId == f.id)))

/-!  The service layer repeats three error-handling idioms; each becomes a
combinator, and every service operation below is their composition. -/

/-- Go idiom `if err != nil { if errors.Is(err, gorm.ErrRecordNotFound)
{ return <domain not-found error> }; return fmt.Errorf("...: %w", err) }`. -/
def mapRepoErr {α β : Type} (r : Except RepoError α) (notFoundErr : SvcError)
    (next : α → Except SvcError β) : Except SvcError β :=
  match r with
  | Except.error RepoError.recordNotFound => Except.error notFoundErr
  | Except.error e => Except.error (SvcError.wrapped e)
  | Except.ok a => next a

/-- Go idiom `if err != nil { return fmt.Errorf("...: %w", err) }`. -/
def wrapRepoErr {α β : Type} (r : Except RepoError α)
    (next : α → Except SvcError β) : Except SvcError β :=
  match r with
  | Except.error e => Except.error (SvcError.wrapped e)
  | Except.ok a => next a

/-- Go idiom `existing, err := <lookup>; if err == nil && existing != nil
&& <dup existing> { return <duplicate error> }` followed by the rest of the
operation.  Note a failed lookup (any failure, not only record-not-found)
falls through to `next`: the error is discarded. -/
def uniquenessCheckFlow {α β : Type} (lookup : Except RepoError α) (dup : α → Bool)
    (dupErr : SvcError) (next : Except SvcError β) : Except SvcError β :=
  match lookup with
  | Except.ok a => if dup a then Except.error dupErr else next
  | Except.error _ => next

/-- `userService.CreateUser` (feature_flag_service.go:205-223).  The lookup
duplicate condition is `err == nil && existingUser != nil` with no further
clause, hence the constant-true `dup`. -/
def createUser (s : Store) (name email : String) (enabled : Bool) :
    Except SvcError (Store × User) :=
  uniquenessCheckFlow (userRepoGetByEmail s email) (fun _ => true)
    SvcError.emailAlreadyExists
    (wrapRepoErr (userRepoCreate s name email enabled) (fun r => Except.ok r))

/-- `userService.GetUser`. -/
def getUser (s : Store) (id : Nat) : Except SvcError User :=
  mapRepoErr (userRepoGetByID s id) SvcError.userNotFound (fun u => Except.ok u)

/-- The partial-update payload (`dto.UpdateUserRequest`): each field is
optional, `none` meaning "field absent from the payload". -/
structure UpdateUserRequest where
  name : Option String
  email : Option String
  enabled : Option Bool
deriving DecidableEq, Repr

/-- Tail of `userService.UpdateUser`: apply the optional `enabled` field and
persist with `userRepo.Update`. -/
def updateUserFinish (s : Store) (req : UpdateUserRequest) (user : User) :
    Except SvcError (Store × User) :=
  let user := match req.enabled with
    | some b => { user with enabled := b }
    | none => user
  wrapRepoErr (userRepoUpdate s user) (fun s2 => Except.ok (s2, user))

/-- `userService.UpdateUser` (feature_flag_service.go:260-290): fetch the
live user, apply `name` if present, on a present `email` run the uniqueness
lookup (duplicate condition `existingUser.ID != id`) and apply it, then
apply `enabled` and save. -/
def updateUser (s : Store) (id : Nat) (req : UpdateUserRequest) :
    Except SvcError (Store × User) :=
  mapRepoErr (userRepoGetByID s id) SvcError.userNotFound (fun user0 =>
    let user1 := match req.name with
      | some n => { user0 with name := n }
      | none => user0
    match req.email with
    | some e =>
      uniquenessCheckFlow (userRepoGetByEmail s e) (fun other => other.id != id)
        SvcError.emailAlreadyExists
        (updateUserFinish s req { user1 with email := e })
    | none => updateUserFinish s req user1)

/-- `userService.DeleteUser` (feature_flag_service.go:293-308): existence
check, then the repository soft delete. -/
def deleteUser (s : Store) (id : Nat) : Except SvcError Store :=
  mapRepoErr (userRepoGetByID s id) SvcError.userNotFound (fun _ =>
    wrapRepoErr (userRepoDelete s id) (fun s2 => Except.ok s2))

/-- `userService.GetUserFeatureFlags` (feature_flag_service.go:311-339). -/
def getUserFeatureFlags (s : Store) (userId : Nat) :
    Except SvcError (List FeatureFlag) :=
  mapRepoErr (userRepoGetByID s userId) SvcError.userNotFound (fun _ =>
    wrapRepoErr (uffRepoGetUserFeatureFlags s userId) (fun flags => Except.ok flags))

/-- `userService.AssignFeatureFlagToUser` (feature_flag_service.go:342-376):
user lookup first, then flag-by-key lookup, then the assignment check, then
the insert. -/
def assignFeatureFlagToUser (s : Store) (userId : Nat) (key : String) :
    Except SvcError Store :=
  mapRepoErr (userRepoGetByID s userId) SvcError.userNotFound (fun _ =>
    mapRepoErr (ffRepoGetByKey s key) SvcError.flagNotFound (fun flag =>
      wrapRepoErr (uffRepoIsAssigned s userId flag.id) (fun isAssigned =>
        if isAssigned then Except.error SvcError.alreadyAssigned
        else wrapRepoErr (uffRepoAssign s userId flag.id) (fun s2 => Except.ok s2))))

/-- `userService.UnassignFeatureFlagFromUser`
(feature_flag_service.go:379-404): user lookup, flag-by-key lookup, then the
unconditional delete (no assigned-check, no error on a no-op). -/
def unassignFeatureFlagFromUser (s : Store) (userId : Nat) (key : String) :
    Except SvcError Store :=
  mapRepoErr (userRepoGetByID s userId) SvcError.userNotFound (fun _ =>
    mapRepoErr (ffRepoGetByKey s key) SvcError.flagNotFound (fun flag =>
      wrapRepoErr (uffRepoUnassign s userId flag.id) (fun s2 => Except.ok s2)))

/-- `featureFlagService.CreateFeatureFlag` (feature_flag_service.go:37-55):
same shape as `createUser`, keyed on `key`. -/
def createFeatureFlag (s : Store) (key description : String) (enabled : Bool) :
    Except SvcError (Store × FeatureFlag) :=
  uniquenessCheckFlow (ffRepoGetByKey s key) (fun _ => true)
    SvcError.keyAlreadyExists
    (wrapRepoErr (ffRepoCreate s key description enabled) (fun r => Except.ok r))

/-- `featureFlagService.DeleteFeatureFlag` (feature_flag_service.go:130-145). -/
def deleteFeatureFlag (s : Store) (id : Nat) : Except SvcError Store :=
  mapRepoErr (ffRepoGetByID s id) SvcError.flagNotFound (fun _ =>
    wrapRepoErr (ffRepoDelete s id) (fun s2 => Except.ok s2))

/-!  Pagination helpers (`internal/service/dto`, shared DTO file). -/

/-- `dto.PaginationParams`. -/
structure PaginationParams where
  page : Int
  pageSize : Int
deriving DecidableEq, Repr

/-- `PaginationParams.GetOffset`: mutates the receiver (defaulting and
clamping both fields) and returns `(Page-1)*PageSize`; modelled as returning
the mutated receiver together with the offset. -/
def getOffset (p : PaginationParams) : PaginationParams × Int :=
  let page := if p.page < 1 then 1 else p.page
  let ps0 := if p.pageSize < 1 then 10 else p.pageSize
  let ps := if ps0 > 100 then 100 else ps0
  (⟨page, ps⟩, (page - 1) * ps)

/-- `PaginationParams.GetLimit`: mutates only `PageSize` and returns it. -/
def getLimit (p : PaginationParams) : PaginationParams × Int :=
  let ps0 := if p.pageSize < 1 then 10 else p.pageSize
  let ps := if ps0 > 100 then 100 else ps0
  (⟨p.page, ps⟩, ps)

/-- `dto.CalculateTotalPages`: Go integer division truncates toward zero
(`Int.tdiv` / `Int.tmod`). -/
def calculateTotalPages (total pageSize : Int) : Int :=
  if pageSize == 0 then 0
  else
    let pages := total.tdiv pageSize
    if total.tmod pageSize > 0 then pages + 1 else pages

/-!  Small equation lemmas for the combinators and lookups. -/

@[simp] theorem mapRepoErr_ok {α β : Type} (a : α) (nf : SvcError)
    (next : α → Except SvcError β) :
    mapRepoErr (Except.ok a) nf next = next a := rfl

@[simp] theorem mapRepoErr_notFound {α β : Type} (nf : SvcError)
    (next : α → Except SvcError β) :
    mapRepoErr (Except.error RepoError.recordNotFound) nf next = Except.error nf := rfl

@[simp] theorem wrapRepoErr_ok {α β : Type} (a : α) (next : α → Except SvcError β) :
    wrapRepoErr (Except.ok a) next = next a := rfl

@[simp] theorem wrapRepoErr_error {α β : Type} (e : RepoError)
    (next : α → Except SvcError β) :
    wrapRepoErr (Except.error e) next = Except.error (SvcError.wrapped e) := rfl

@[simp] theorem uniquenessCheckFlow_ok {α β : Type} (a : α) (dup : α → Bool)
    (dupErr : SvcError) (next : Except SvcError β) :
    uniquenessCheckFlow (Except.ok a) dup dupErr next =
      if dup a then Except.error dupErr else next := rfl

@[simp] theorem uniquenessCheckFlow_error {α β : Type} (e : RepoError) (dup : α → Bool)
    (dupErr : SvcError) (next : Except SvcError β) :
    uniquenessCheckFlow (Except.error e) dup dupErr next = next := rfl

@[simp] theorem firstOrNotFound_some {α : Type} (a : α) :
    firstOrNotFound (some a) = Except.ok a := rfl

@[simp] theorem firstOrNotFound_none {α : Type} :
    firstOrNotFound (none : Option α) = Except.error RepoError.recordNotFound := rfl

/-- A user lookup by id fails when every row with that id is soft-deleted
(or no row has the id). -/
theorem userRepoGetByID_eq_notFound (s : Store) (id : Nat)
    (h : ∀ u ∈ s.users, u.id = id → u.deleted = true) :
    userRepoGetByID s id = Except.error RepoError.recordNotFound := by
  unfold userRepoGetByID
  have hnone : s.users.find? (fun u => u.id == id && !u.deleted) = none := by
    rw [List.find?_eq_none]
    intro u hu hcontra
    simp only [Bool.and_eq_true, beq_iff_eq, Bool.not_eq_true'] at hcontra
    simp [h u hu hcontra.1] at hcontra
  rw [hnone]
  rfl

/-- Inversion of a successful user lookup by id. -/
theorem userRepoGetByID_ok_mem {s : Store} {id : Nat} {u : User}
    (h : userRepoGetByID s id = Except.ok u) :
    u ∈ s.users ∧ u.id = id ∧ u.deleted = false := by
  unfold userRepoGetByID at h
  cases hf : s.users.find? (fun v => v.id == id && !v.deleted) with
  | none => rw [hf] at h; simp [firstOrNotFound] at h
  | some v =>
    rw [hf] at h
    simp only [firstOrNotFound_some, Except.ok.injEq] at h
    subst h
    have hp := List.find?_some hf
    simp only [Bool.and_eq_true, beq_iff_eq, Bool.not_eq_true'] at hp
    exact ⟨List.mem_of_find?_eq_some hf, hp.1, hp.2⟩

/-- An email lookup fails when no live row carries the email. -/
theorem userRepoGetByEmail_eq_notFound (s : Store) (email : String)
    (h : ∀ u ∈ s.users, u.deleted = false → u.email ≠ email) :
    userRepoGetByEmail s email = Except.error RepoError.recordNotFound := by
  unfold userRepoGetByEmail
  have hnone : s.users.find? (fun u => u.email == email && !u.deleted) = none := by
    rw [List.find?_eq_none]
    intro u hu hcontra
    simp only [Bool.and_eq_true, beq_iff_eq, Bool.not_eq_true'] at hcontra
    exact h u hu hcontra.2 hcontra.1
  rw [hnone]
  rfl

/-- An email lookup succeeds when some live row carries the email. -/
theorem userRepoGetByEmail_ok_of (s : Store) (email : String)
    (h : ∃ u ∈ s.users, u.deleted = false ∧ u.email = email) :
    ∃ u, userRepoGetByEmail s email = Except.ok u ∧
      u ∈ s.users ∧ u.deleted = false ∧ u.email = email := by
  unfold userRepoGetByEmail
  have hsome : (s.users.find? (fun u => u.email == email && !u.deleted)).isSome := by
    rw [List.find?_isSome]
    obtain ⟨u, hu, hd, he⟩ := h
    exact ⟨u, hu, by simp [he, hd]⟩
  cases hf : s.users.find? (fun u => u.email == email && !u.deleted) with
  | none => rw [hf] at hsome; simp at hsome
  | some v =>
    refine ⟨v, rfl, List.mem_of_find?_eq_some hf, ?_, ?_⟩
    · have hp := List.find?_some hf
      simp only [Bool.and_eq_true, Bool.not_eq_true'] at hp
      exact hp.2
    · have hp := List.find?_some hf
      simp only [Bool.and_eq_true, beq_iff_eq] at hp
      exact hp.1

/-- A flag lookup by key fails when no live row carries the key. -/
theorem ffRepoGetByKey_eq_notFound (s : Store) (key : String)
    (h : ∀ f ∈ s.flags, f.deleted = false → f.key ≠ key) :
    ffRepoGetByKey s key = Except.error RepoError.recordNotFound := by
  unfold ffRepoGetByKey
  have hnone : s.flags.find? (fun f => f.key == key && !f.deleted) = none := by
    rw [List.find?_eq_none]
    intro f hf hcontra
    simp only [Bool.and_eq_true, beq_iff_eq, Bool.not_eq_true'] at hcontra
    exact h f hf hcontra.2 hcontra.1
  rw [hnone]
  rfl

/-- Inversion of a successful flag lookup by key. -/
theorem ffRepoGetByKey_ok_mem {s : Store} {key : String} {f : FeatureFlag}
    (h : ffRepoGetByKey s key = Except.ok f) :
    f ∈ s.flags ∧ f.key = key ∧ f.deleted = false := by
  unfold ffRepoGetByKey at h
  cases hf : s.flags.find? (fun g => g.key == key && !g.deleted) with
  | none => rw [hf] at h; simp [firstOrNotFound] at h
  | some g =>
    rw [hf] at h
    simp only [firstOrNotFound_some, Except.ok.injEq] at h
    subst h
    have hp := List.find?_some hf
    simp only [Bool.and_eq_true, beq_iff_eq, Bool.not_eq_true'] at hp
    exact ⟨List.mem_of_find?_eq_some hf, hp.1, hp.2⟩

/-- Any row (live or soft-deleted) holding the email makes the raw insert
violate the unique index. -/
theorem userRepoCreate_uniqueViolation (s : Store) (name email : String) (enabled : Bool)
    (h : ∃ u ∈ s.users, u.email = email) :
    userRepoCreate s name email enabled = Except.error RepoError.uniqueViolation := by
  unfold userRepoCreate
  have hany : s.users.any (fun u => u.email == email) = true := by
    rw [List.any_eq_true]
    obtain ⟨u, hu, he⟩ := h
    exact ⟨u, hu, by simp [he]⟩
  simp [hany]

/-- Any row (live or soft-deleted) holding the key makes the raw insert
violate the unique index. -/
theorem ffRepoCreate_uniqueViolation (s : Store) (key description : String) (enabled : Bool)
    (h : ∃ f ∈ s.flags, f.key = key) :
    ffRepoCreate s key description enabled = Except.error RepoError.uniqueViolation := by
  unfold ffRepoCreate
  have hany : s.flags.any (fun f => f.key == key) = true := by
    rw [List.any_eq_true]
    obtain ⟨f, hf, hk⟩ := h
    exact ⟨f, hf, by simp [hk]⟩
  simp [hany]

/-- When no row at all holds the email, the raw insert succeeds and returns
the fresh row. -/
theorem userRepoCreate_ok (s : Store) (name email : String) (enabled : Bool)
    (h : ∀ u ∈ s.users, u.email ≠ email) :
    userRepoCreate s name email enabled =
      Except.ok
        ({ s with
            users := s.users ++ [{ id := s.nextUserId, name := name, email := email,
                                   enabled := enabled, deleted := false }],
            nextUserId := s.nextUserId + 1 },
         { id := s.nextUserId, name := name, email := email,
           enabled := enabled, deleted := false }) := by
  unfold userRepoCreate
  have hany : s.users.any (fun u => u.email == email) = false := by
    rw [List.any_eq_false]
    intro u hu
    simp [h u hu]
  simp [hany]

/-- Claim C1 (code_bug evidence).  Concrete run of the spec's own scenario:
create the user `Ann` (id 1), create the flag `beta` (id 1), assign it,
then `DeleteUser 1`.  The delete soft-deletes the user row but the
assignment row `(1, 1)` survives in the final store, because GORM's soft
delete is an UPDATE and the schema's `ON DELETE CASCADE` only fires on a
hard DELETE.  This contradicts the claim that `DeleteUser` removes every
assignment row referencing the deleted entity. -/
theorem c1_delete_leaves_assignment_row :
    (do
      let (s1, _) ← createUser emptyStore "Ann" "ann@x.com" true
      let (s2, _) ← createFeatureFlag s1 "beta" "" false
      let s3 ← assignFeatureFlagToUser s2 1 "beta"
      deleteUser s3 1 : Except SvcError Store) =
    Except.ok
      { users := [{ id := 1, name := "Ann", email := "ann@x.com",
                    enabled := true, deleted := true }],
        flags := [{ id := 1, key := "beta", description := "",
                    enabled := false, deleted := false }],
        assignments := [{ userId := 1, flagId := 1 }],
        nextUserId := 2, nextFlagId := 2 } := by
  rfl

/-- Claim C4 counterexample.  In the empty store no flag with key `beta`
exists, yet `AssignFeatureFlagToUser 1 "beta"` returns the user-not-found
error, not the feature-flag-not-found error: the code checks the user before
resolving the flag key. -/
theorem c4_counterexample :
    ffRepoGetByKey emptyStore "beta" = Except.error RepoError.recordNotFound ∧
    assignFeatureFlagToUser emptyStore 1 "beta" = Except.error SvcError.userNotFound ∧
    SvcError.userNotFound ≠ SvcError.flagNotFound := by
  refine ⟨rfl, rfl, by decide⟩

/-- Claim C4, amended.  `AssignFeatureFlagToUser` performs its checks in the
order user first, then flag: if no live user with the id exists the result
is the user-not-found error regardless of the flag; the flag-not-found error
is returned only when the user exists and no live flag has the key. -/
theorem c4_amended_user_checked_first (s : Store) (uid : Nat) (key : String) :
    ((∀ u ∈ s.users, u.id = uid → u.deleted = true) →
      assignFeatureFlagToUser s uid key = Except.error SvcError.userNotFound) ∧
    (∀ u, userRepoGetByID s uid = Except.ok u →
      (∀ f ∈ s.flags, f.deleted = false → f.key ≠ key) →
      assignFeatureFlagToUser s uid key = Except.error SvcError.flagNotFound) := by
  constructor
  · intro h
    unfold assignFeatureFlagToUser
    rw [userRepoGetByID_eq_notFound s uid h]
    rfl
  · intro u hu hflags
    unfold assignFeatureFlagToUser
    rw [hu, ffRepoGetByKey_eq_notFound s key hflags]
    rfl

/-- Witness for the amended C4 theorem at concrete inputs: an empty store for
the first part, and a store holding only the live user `Ann` (id 7) for the
second. -/
theorem c4_amended_witness :
    assignFeatureFlagToUser emptyStore 1 "beta" = Except.error SvcError.userNotFound ∧
    assignFeatureFlagToUser
      { users := [{ id := 7, name := "Ann", email := "ann@x.com",
                    enabled := true, deleted := false }],
        flags := [], assignments := [], nextUserId := 8, nextFlagId := 1 }
      7 "beta" = Except.error SvcError.flagNotFound := by
  constructor
  · exact (c4_amended_user_checked_first emptyStore 1 "beta").1
      (by intro u hu; simp [emptyStore] at hu)
  · exact (c4_amended_user_checked_first _ 7 "beta").2
      { id := 7, name := "Ann", email := "ann@x.com", enabled := true, deleted := false }
      rfl (by intro f hf; simp at hf)

/-- Claim C3 counterexample.  The uniqueness-check step of `createUser`
(which is, definitionally, `uniquenessCheckFlow` applied to the email
lookup, as the final conjunct records) silently discards a lookup failure
that is not record-not-found: with the lookup failing as `connectionFailed`,
the flow continues and the operation finishes successfully — the store
failure was neither translated nor wrapped. -/
theorem c3_counterexample :
    uniquenessCheckFlow (Except.error RepoError.connectionFailed : Except RepoError User)
        (fun _ => true) SvcError.emailAlreadyExists
        (Except.ok (emptyStore,
          ({ id := 1, name := "Ann", email := "ann@x.com",
             enabled := true, deleted := false } : User))) =
      Except.ok (emptyStore,
        { id := 1, name := "Ann", email := "ann@x.com",
          enabled := true, deleted := false }) ∧
    RepoError.connectionFailed ≠ RepoError.recordNotFound ∧
    createUser emptyStore "Ann" "ann@x.com" true =
      uniquenessCheckFlow (userRepoGetByEmail emptyStore "ann@x.com") (fun _ => true)
        SvcError.emailAlreadyExists
        (wrapRepoErr (userRepoCreate emptyStore "Ann" "ann@x.com" true)
          (fun r => Except.ok r)) := by
  exact ⟨rfl, by decide, rfl⟩

/-- Claim C3, amended.  The service's error handling is exactly three
idioms.  `mapRepoErr` (used after every lookup whose absence is a domain
condition) and `wrapRepoErr` (used after every other repository call) never
discard a failure: a failing call always yields the translated domain error
or the wrapped store error.  The single exception is `uniquenessCheckFlow`,
the idiom of the uniqueness-check lookups inside CreateUser,
CreateFeatureFlag and UpdateUser: any lookup failure — record-not-found or
not — is treated identically, the operation continuing as if no duplicate
record existed. -/
theorem c3_amended_error_routing :
    (∀ (e : RepoError) (dup : User → Bool) (dupErr : SvcError)
        (next : Except SvcError (Store × User)),
      uniquenessCheckFlow (Except.error e) dup dupErr next =
        uniquenessCheckFlow (Except.error RepoError.recordNotFound) dup dupErr next) ∧
    (∀ (e : RepoError) (nf : SvcError) (next : User → Except SvcError Store),
      mapRepoErr (Except.error e) nf next =
        Except.error (if e = RepoError.recordNotFound then nf else SvcError.wrapped e)) ∧
    (∀ (e : RepoError) (next : Store → Except SvcError Store),
      wrapRepoErr (Except.error e) next = Except.error (SvcError.wrapped e)) := by
  refine ⟨fun e dup dupErr next => rfl, fun e nf next => ?_, fun e next => rfl⟩
  cases e <;> rfl

/-- Witness for the amended C3 theorem at concrete arguments. -/
theorem c3_amended_witness :
    uniquenessCheckFlow (Except.error RepoError.uniqueViolation) (fun _ : User => true)
        SvcError.emailAlreadyExists (Except.ok (emptyStore,
          ({ id := 1, name := "A", email := "a", enabled := true, deleted := false } : User))) =
      uniquenessCheckFlow (Except.error RepoError.recordNotFound) (fun _ : User => true)
        SvcError.emailAlreadyExists (Except.ok (emptyStore,
          ({ id := 1, name := "A", email := "a", enabled := true, deleted := false } : User))) ∧
    mapRepoErr (Except.error RepoError.connectionFailed) SvcError.userNotFound
        (fun _ : User => Except.ok emptyStore) =
      Except.error (if RepoError.connectionFailed = RepoError.recordNotFound
        then SvcError.userNotFound else SvcError.wrapped RepoError.connectionFailed) ∧
    wrapRepoErr (Except.error RepoError.connectionFailed)
        (fun _ : Store => Except.ok emptyStore) =
      Except.error (SvcError.wrapped RepoError.connectionFailed) := by
  exact ⟨c3_amended_error_routing.1 RepoError.uniqueViolation _ _ _,
    c3_amended_error_routing.2.1 RepoError.connectionFailed _ _,
    c3_amended_error_routing.2.2 RepoError.connectionFailed _⟩

/-- Claim C10.  Two independent conditionals.  When some user row holds the
email but every row holding it is soft-deleted, `CreateUser` passes the
service's uniqueness check (which only sees live rows) and the insert then
hits the unique index, which covers soft-deleted rows too: the result is the
wrapped storage constraint error, not the domain already-exists error.
Symmetrically, and independently of the state of the users table, for
`CreateFeatureFlag` and a soft-deleted flag key. -/
theorem c10_softDeleted_unique_keys (s : Store) (name email key description : String)
    (b1 b2 : Bool) :
    ((∀ u ∈ s.users, u.deleted = false → u.email ≠ email) →
      (∃ u ∈ s.users, u.email = email) →
      createUser s name email b1 =
        Except.error (SvcError.wrapped RepoError.uniqueViolation)) ∧
    ((∀ f ∈ s.flags, f.deleted = false → f.key ≠ key) →
      (∃ f ∈ s.flags, f.key = key) →
      createFeatureFlag s key description b2 =
        Except.error (SvcError.wrapped RepoError.uniqueViolation)) := by
  constructor
  · intro hNoLiveU hRowU
    unfold createUser
    rw [userRepoGetByEmail_eq_notFound s email hNoLiveU,
      userRepoCreate_uniqueViolation s name email b1 hRowU]
    rfl
  · intro hNoLiveF hRowF
    unfold createFeatureFlag
    rw [ffRepoGetByKey_eq_notFound s key hNoLiveF,
      ffRepoCreate_uniqueViolation s key description b2 hRowF]
    rfl

/-- Witness for C10, exercising the two conditionals independently on two
different stores: the first holds a soft-deleted user with email `ann@x.com`
while every flag is live; the second holds only live users while its flag
`beta` is soft-deleted. -/
theorem c10_witness :
    createUser
      { users := [{ id := 1, name := "Ann", email := "ann@x.com",
                    enabled := true, deleted := true }],
        flags := [{ id := 1, key := "gamma", description := "",
                    enabled := true, deleted := false }],
        assignments := [], nextUserId := 2, nextFlagId := 2 }
      "Bob" "ann@x.com" true =
      Except.error (SvcError.wrapped RepoError.uniqueViolation) ∧
    createFeatureFlag
      { users := [{ id := 1, name := "Carl", email := "c@x.com",
                    enabled := true, deleted := false }],
        flags := [{ id := 1, key := "beta", description := "",
                    enabled := false, deleted := true }],
        assignments := [], nextUserId := 2, nextFlagId := 2 }
      "beta" "again" false =
      Except.error (SvcError.wrapped RepoError.uniqueViolation) := by
  constructor
  · exact (c10_softDeleted_unique_keys
      { users := [{ id := 1, name := "Ann", email := "ann@x.com",
                    enabled := true, deleted := true }],
        flags := [{ id := 1, key := "gamma", description := "",
                    enabled := true, deleted := false }],
        assignments := [], nextUserId := 2, nextFlagId := 2 }
      "Bob" "ann@x.com" "beta" "again" true false).1
      (by intro u hu hd; simp at hu; simp [hu] at hd)
      (⟨{ id := 1, name := "Ann", email := "ann@x.com", enabled := true, deleted := true },
        by simp, rfl⟩)
  · exact (c10_softDeleted_unique_keys
      { users := [{ id := 1, name := "Carl", email := "c@x.com",
                    enabled := true, deleted := false }],
        flags := [{ id := 1, key := "beta", description := "",
                    enabled := false, deleted := true }],
        assignments := [], nextUserId := 2, nextFlagId := 2 }
      "Bob" "ann@x.com" "beta" "again" true false).2
      (by intro f hf hd; simp at hf; simp [hf] at hd)
      (⟨{ id := 1, key := "beta", description := "", enabled := false, deleted := true },
        by simp, rfl⟩)

/-- A successful id lookup means some row with the id is in the table. -/
theorem users_any_id_of_getByID_ok {s : Store} {id : Nat} {u : User}
    (h : userRepoGetByID s id = Except.ok u) :
    s.users.any (fun v => v.id == id) = true := by
  obtain ⟨hm, hid, _⟩ := userRepoGetByID_ok_mem h
  rw [List.any_eq_true]
  exact ⟨u, hm, by simp [hid]⟩

/-- A successful key lookup means some row with the flag's id is in the table. -/
theorem flags_any_id_of_getByKey_ok {s : Store} {key : String} {f : FeatureFlag}
    (h : ffRepoGetByKey s key = Except.ok f) :
    s.flags.any (fun g => g.id == f.id) = true := by
  obtain ⟨hm, _, _⟩ := ffRepoGetByKey_ok_mem h
  rw [List.any_eq_true]
  exact ⟨f, hm, by simp⟩

/-- Lookups ignore the assignment table. -/
theorem userRepoGetByID_set_assignments (s : Store) (x : List Assignment) (id : Nat) :
    userRepoGetByID { s with assignments := x } id = userRepoGetByID s id := rfl

/-- Lookups ignore the assignment table. -/
theorem ffRepoGetByKey_set_assignments (s : Store) (x : List Assignment) (key : String) :
    ffRepoGetByKey { s with assignments := x } key = ffRepoGetByKey s key := rfl

/-- Inversion of a successful `assignFeatureFlagToUser`: the user lookup and
the flag lookup succeeded, the pair was not yet assigned, and the new store
is the old one with exactly the one junction row appended. -/
theorem assignFeatureFlagToUser_ok_inv {s s1 : Store} {uid : Nat} {key : String}
    (h : assignFeatureFlagToUser s uid key = Except.ok s1) :
    ∃ u flag, userRepoGetByID s uid = Except.ok u ∧
      ffRepoGetByKey s key = Except.ok flag ∧
      s.assignments.any (fun a => a.userId == uid && a.flagId == flag.id) = false ∧
      s1 = { s with assignments := s.assignments ++ [⟨uid, flag.id⟩] } := by
  unfold assignFeatureFlagToUser at h
  cases hu : userRepoGetByID s uid with
  | error e => rw [hu] at h; cases e <;> simp [mapRepoErr] at h
  | ok u =>
    rw [hu] at h
    simp only [mapRepoErr_ok] at h
    cases hf : ffRepoGetByKey s key with
    | error e => rw [hf] at h; cases e <;> simp [mapRepoErr] at h
    | ok flag =>
      rw [hf] at h
      simp only [mapRepoErr_ok] at h
      unfold uffRepoIsAssigned at h
      simp only [wrapRepoErr_ok] at h
      cases hb : s.assignments.any (fun a => a.userId == uid && a.flagId == flag.id) with
      | true => rw [hb] at h; simp at h
      | false =>
        rw [hb] at h
        simp only [Bool.false_eq_true, if_false] at h
        unfold uffRepoAssign at h
        rw [hb, users_any_id_of_getByID_ok hu, flags_any_id_of_getByKey_ok hf] at h
        simp only [Bool.false_eq_true, if_false, Bool.not_true, wrapRepoErr_ok,
          Except.ok.injEq] at h
        exact ⟨u, flag, rfl, rfl, hb, h.symm⟩

/-- Claim C2.  After a successful `AssignFeatureFlagToUser s uid key`
yielding store `s1`, the key still resolves to a flag and the pair is
assigned in `s1`; a second identical call on `s1` fails with the
already-assigned error.  An error result carries no store in this model —
the Go error path executes no mutating repository call — so the failing
second call leaves the assignment set exactly as it was; the final conjuncts
record that the successful call itself changed nothing but the assignment
list. -/
theorem c2_assign_then_reassign (s s1 : Store) (uid : Nat) (key : String)
    (h : assignFeatureFlagToUser s uid key = Except.ok s1) :
    (∃ flag, ffRepoGetByKey s1 key = Except.ok flag ∧
        uffRepoIsAssigned s1 uid flag.id = Except.ok true) ∧
    assignFeatureFlagToUser s1 uid key = Except.error SvcError.alreadyAssigned ∧
    s1.users = s.users ∧ s1.flags = s.flags := by
  obtain ⟨u, flag, hu, hf, hb, hs1⟩ := assignFeatureFlagToUser_ok_inv h
  subst hs1
  refine ⟨⟨flag, hf, ?_⟩, ?_, rfl, rfl⟩
  · unfold uffRepoIsAssigned
    simp [List.any_append]
  · unfold assignFeatureFlagToUser
    rw [userRepoGetByID_set_assignments, hu]
    simp only [mapRepoErr_ok]
    rw [ffRepoGetByKey_set_assignments, hf]
    simp only [mapRepoErr_ok]
    unfold uffRepoIsAssigned
    simp [List.any_append]

/-- Witness for C2: assigning flag `beta` to user 1 in a two-row store
succeeds, and the theorem's conclusions hold for the resulting store. -/
theorem c2_witness :
    (∃ flag, ffRepoGetByKey
        { users := [{ id := 1, name := "Ann", email := "ann@x.com",
                      enabled := true, deleted := false }],
          flags := [{ id := 1, key := "beta", description := "",
                      enabled := false, deleted := false }],
          assignments := [{ userId := 1, flagId := 1 }],
          nextUserId := 2, nextFlagId := 2 } "beta" = Except.ok flag ∧
      uffRepoIsAssigned
        { users := [{ id := 1, name := "Ann", email := "ann@x.com",
                      enabled := true, deleted := false }],
          flags := [{ id := 1, key := "beta", description := "",
                      enabled := false, deleted := false }],
          assignments := [{ userId := 1, flagId := 1 }],
          nextUserId := 2, nextFlagId := 2 } 1 flag.id = Except.ok true) ∧
    assignFeatureFlagToUser
      { users := [{ id := 1, name := "Ann", email := "ann@x.com",
                    enabled := true, deleted := false }],
        flags := [{ id := 1, key := "beta", description := "",
                    enabled := false, deleted := false }],
        assignments := [{ userId := 1, flagId := 1 }],
        nextUserId := 2, nextFlagId := 2 } 1 "beta" =
      Except.error SvcError.alreadyAssigned ∧
    ({ users := [{ id := 1, name := "Ann", email := "ann@x.com",
                   enabled := true, deleted := false }],
       flags := [{ id := 1, key := "beta", description := "",
                   enabled := false, deleted := false }],
       assignments := [{ userId := 1, flagId := 1 }],
       nextUserId := 2, nextFlagId := 2 } : Store).users =
      ({ users := [{ id := 1, name := "Ann", email := "ann@x.com",
                     enabled := true, deleted := false }],
         flags := [{ id := 1, key := "beta", description := "",
                     enabled := false, deleted := false }],
         assignments := [], nextUserId := 2, nextFlagId := 2 } : Store).users ∧
    ({ users := [{ id := 1, name := "Ann", email := "ann@x.com",
                   enabled := true, deleted := false }],
       flags := [{ id := 1, key := "beta", description := "",
                   enabled := false, deleted := false }],
       assignments := [{ userId := 1, flagId := 1 }],
       nextUserId := 2, nextFlagId := 2 } : Store).flags =
      ({ users := [{ id := 1, name := "Ann", email := "ann@x.com",
                     enabled := true, deleted := false }],
         flags := [{ id := 1, key := "beta", description := "",
                     enabled := false, deleted := false }],
         assignments := [], nextUserId := 2, nextFlagId := 2 } : Store).flags := by
  exact c2_assign_then_reassign
    { users := [{ id := 1, name := "Ann", email := "ann@x.com",
                  enabled := true, deleted := false }],
      flags := [{ id := 1, key := "beta", description := "",
                  enabled := false, deleted := false }],
      assignments := [], nextUserId := 2, nextFlagId := 2 }
    _ 1 "beta" rfl

/-- Claim C6.  When the user exists, the key resolves to a flag, and the
pair is not assigned, `UnassignFeatureFlagFromUser` succeeds and returns the
store unchanged: unassigning a non-existent pair is success, not an error,
and a no-op. -/
theorem c6_unassign_unassigned_pair (s : Store) (uid : Nat) (key : String)
    (u : User) (flag : FeatureFlag)
    (hu : userRepoGetByID s uid = Except.ok u)
    (hf : ffRepoGetByKey s key = Except.ok flag)
    (hna : uffRepoIsAssigned s uid flag.id = Except.ok false) :
    unassignFeatureFlagFromUser s uid key = Except.ok s := by
  have hany : s.assignments.any (fun a => a.userId == uid && a.flagId == flag.id) = false := by
    unfold uffRepoIsAssigned at hna
    simpa using hna
  unfold unassignFeatureFlagFromUser
  rw [hu]
  simp only [mapRepoErr_ok]
  rw [hf]
  simp only [mapRepoErr_ok]
  unfold uffRepoUnassign
  simp only [wrapRepoErr_ok]
  have hfilter : s.assignments.filter
      (fun a => !(a.userId == uid && a.flagId == flag.id)) = s.assignments := by
    rw [List.filter_eq_self]
    intro a ha
    have hfa := List.any_eq_false.mp hany a ha
    cases hpa : (a.userId == uid && a.flagId == flag.id) with
    | false => simp [hpa]
    | true => exact absurd hpa hfa
  rw [hfilter]

/-- Inversion of a successful user lookup by email. -/
theorem userRepoGetByEmail_ok_mem {s : Store} {email : String} {u : User}
    (h : userRepoGetByEmail s email = Except.ok u) :
    u ∈ s.users ∧ u.email = email ∧ u.deleted = false := by
  unfold userRepoGetByEmail at h
  cases hf : s.users.find? (fun v => v.email == email && !v.deleted) with
  | none => rw [hf] at h; simp [firstOrNotFound] at h
  | some v =>
    rw [hf] at h
    simp only [firstOrNotFound_some, Except.ok.injEq] at h
    subst h
    have hp := List.find?_some hf
    simp only [Bool.and_eq_true, beq_iff_eq, Bool.not_eq_true'] at hp
    exact ⟨List.mem_of_find?_eq_some hf, hp.1, hp.2⟩

/-- Claim C9.  `GetUserFeatureFlags` fails with the user-not-found error for
every id that no live user carries — in particular for a soft-deleted user
it never returns an empty list — and for an existing user it returns exactly
the live flags whose assignment row for that user is present. -/
theorem c9_getUserFeatureFlags_spec (s : Store) (uid : Nat) :
    ((∀ u ∈ s.users, u.id = uid → u.deleted = true) →
      getUserFeatureFlags s uid = Except.error SvcError.userNotFound) ∧
    (∀ u, userRepoGetByID s uid = Except.ok u →
      ∃ flags, getUserFeatureFlags s uid = Except.ok flags ∧
        ∀ f, f ∈ flags ↔
          (f ∈ s.flags ∧ f.deleted = false ∧
            (⟨uid, f.id⟩ : Assignment) ∈ s.assignments)) := by
  constructor
  · intro h
    unfold getUserFeatureFlags
    rw [userRepoGetByID_eq_notFound s uid h]
    rfl
  · intro u hu
    unfold getUserFeatureFlags
    rw [hu]
    simp only [mapRepoErr_ok]
    unfold uffRepoGetUserFeatureFlags
    simp only [wrapRepoErr_ok]
    refine ⟨_, rfl, ?_⟩
    intro f
    rw [List.mem_filter]
    constructor
    · rintro ⟨hmem, hp⟩
      simp only [Bool.and_eq_true, Bool.not_eq_true'] at hp
      obtain ⟨hdel, hany⟩ := hp
      rw [List.any_eq_true] at hany
      obtain ⟨a, ha, hpa⟩ := hany
      simp only [Bool.and_eq_true, beq_iff_eq] at hpa
      refine ⟨hmem, hdel, ?_⟩
      have haeq : a = ⟨uid, f.id⟩ := by
        cases a
        simp_all
      rw [← haeq]
      exact ha
    · rintro ⟨hmem, hdel, hassign⟩
      refine ⟨hmem, ?_⟩
      simp only [Bool.and_eq_true, Bool.not_eq_true']
      exact ⟨hdel, List.any_eq_true.mpr ⟨⟨uid, f.id⟩, hassign, by simp⟩⟩

/-- Witness for C9: the store whose only user (id 1) is soft-deleted yields
the user-not-found error; the store with a live user, one live assigned flag
and one live unassigned flag returns exactly the assigned one. -/
theorem c9_witness :
    getUserFeatureFlags
      { users := [{ id := 1, name := "Ann", email := "ann@x.com",
                    enabled := true, deleted := true }],
        flags := [{ id := 1, key := "beta", description := "",
                    enabled := false, deleted := false }],
        assignments := [{ userId := 1, flagId := 1 }],
        nextUserId := 2, nextFlagId := 2 } 1 =
      Except.error SvcError.userNotFound ∧
    getUserFeatureFlags
      { users := [{ id := 1, name := "Ann", email := "ann@x.com",
                    enabled := true, deleted := false }],
        flags := [{ id := 1, key := "beta", description := "",
                    enabled := false, deleted := false },
                  { id := 2, key := "gamma", description := "",
                    enabled := true, deleted := false }],
        assignments := [{ userId := 1, flagId := 1 }],
        nextUserId := 2, nextFlagId := 3 } 1 =
      Except.ok [{ id := 1, key := "beta", description := "",
                   enabled := false, deleted := false }] := by
  constructor
  · exact (c9_getUserFeatureFlags_spec _ 1).1
      (by intro u hu hid; simp at hu; simp [hu])
  · rfl

/-- Claim C5 counterexample.  Starting from the empty store, create the user
`Ann` with email `ann@x.com`, soft-delete her, and create `Bob` with the
same email.  No non-deleted user carries the email (third conjunct), yet the
create neither succeeds nor fails with the domain already-exists error: it
fails with the wrapped unique-index violation, because the index still
covers the soft-deleted row. -/
theorem c5_counterexample :
    createUser emptyStore "Ann" "ann@x.com" true =
      Except.ok
        ({ users := [{ id := 1, name := "Ann", email := "ann@x.com",
                       enabled := true, deleted := false }],
           flags := [], assignments := [], nextUserId := 2, nextFlagId := 1 },
         { id := 1, name := "Ann", email := "ann@x.com",
           enabled := true, deleted := false }) ∧
    deleteUser
      { users := [{ id := 1, name := "Ann", email := "ann@x.com",
                    enabled := true, deleted := false }],
        flags := [], assignments := [], nextUserId := 2, nextFlagId := 1 } 1 =
      Except.ok
        { users := [{ id := 1, name := "Ann", email := "ann@x.com",
                      enabled := true, deleted := true }],
          flags := [], assignments := [], nextUserId := 2, nextFlagId := 1 } ∧
    ({ users := [{ id := 1, name := "Ann", email := "ann@x.com",
                   enabled := true, deleted := true }],
       flags := [], assignments := [], nextUserId := 2, nextFlagId := 1 } : Store).users.any
        (fun u => !u.deleted && u.email == "ann@x.com") = false ∧
    createUser
      { users := [{ id := 1, name := "Ann", email := "ann@x.com",
                    enabled := true, deleted := true }],
        flags := [], assignments := [], nextUserId := 2, nextFlagId := 1 }
      "Bob" "ann@x.com" true =
      Except.error (SvcError.wrapped RepoError.uniqueViolation) ∧
    SvcError.wrapped RepoError.uniqueViolation ≠ SvcError.emailAlreadyExists := by
  exact ⟨rfl, rfl, rfl, rfl, by decide⟩

/-- Claim C5, amended.  `CreateUser` fails with the already-exists error if
and only if a non-deleted user with exactly that email exists.  When no user
row at all (live or soft-deleted) carries the email, it creates and returns
the new user, and a second create with the same email — any name and enabled
value, i.e. either call order of the two users — fails with already-exists
and changes nothing.  (When only a soft-deleted row carries the email the
create instead fails with the wrapped constraint error; see the
counterexample.) -/
theorem c5_amended_createUser (s : Store) (n1 email : String) (b1 : Bool) :
    (createUser s n1 email b1 = Except.error SvcError.emailAlreadyExists ↔
      ∃ u ∈ s.users, u.deleted = false ∧ u.email = email) ∧
    ((∀ u ∈ s.users, u.email ≠ email) →
      ∀ n2 b2,
        createUser s n1 email b1 =
          Except.ok
            ({ s with
                users := s.users ++ [{ id := s.nextUserId, name := n1, email := email,
                                       enabled := b1, deleted := false }],
                nextUserId := s.nextUserId + 1 },
             { id := s.nextUserId, name := n1, email := email,
               enabled := b1, deleted := false }) ∧
        createUser
          { s with
              users := s.users ++ [{ id := s.nextUserId, name := n1, email := email,
                                     enabled := b1, deleted := false }],
              nextUserId := s.nextUserId + 1 } n2 email b2 =
          Except.error SvcError.emailAlreadyExists) := by
  constructor
  · constructor
    · intro h
      unfold createUser at h
      cases hl : userRepoGetByEmail s email with
      | ok v =>
        obtain ⟨hm, he, hd⟩ := userRepoGetByEmail_ok_mem hl
        exact ⟨v, hm, hd, he⟩
      | error e =>
        rw [hl] at h
        simp only [uniquenessCheckFlow_error] at h
        cases hc : userRepoCreate s n1 email b1 with
        | ok p => rw [hc] at h; simp at h
        | error e2 => rw [hc] at h; simp at h
    · intro h
      obtain ⟨v, hv, hm, hd, he⟩ := userRepoGetByEmail_ok_of s email
        (by obtain ⟨u, hu, hdel, hem⟩ := h; exact ⟨u, hu, hdel, hem⟩)
      unfold createUser
      rw [hv]
      simp
  · intro hno n2 b2
    constructor
    · unfold createUser
      rw [userRepoGetByEmail_eq_notFound s email (fun u hu _ => hno u hu)]
      simp only [uniquenessCheckFlow_error]
      rw [userRepoCreate_ok s n1 email b1 hno]
      rfl
    · obtain ⟨v, hv, hm, hd, he⟩ := userRepoGetByEmail_ok_of
        { s with
            users := s.users ++ [{ id := s.nextUserId, name := n1, email := email,
                                   enabled := b1, deleted := false }],
            nextUserId := s.nextUserId + 1 } email
        ⟨{ id := s.nextUserId, name := n1, email := email,
           enabled := b1, deleted := false },
          by simp, rfl, rfl⟩
      unfold createUser
      rw [hv]
      simp

/-- Witness for the amended C5 theorem: a duplicate create against a live
user fails with already-exists, and from the empty store the two sequential
creates with the same email yield one success and one already-exists. -/
theorem c5_witness :
    createUser
      { users := [{ id := 1, name := "Ann", email := "ann@x.com",
                    enabled := true, deleted := false }],
        flags := [], assignments := [], nextUserId := 2, nextFlagId := 1 }
      "Bob" "ann@x.com" true = Except.error SvcError.emailAlreadyExists ∧
    createUser emptyStore "Ann" "ann@x.com" true =
      Except.ok
        ({ users := [{ id := 1, name := "Ann", email := "ann@x.com",
                       enabled := true, deleted := false }],
           flags := [], assignments := [], nextUserId := 2, nextFlagId := 1 },
         { id := 1, name := "Ann", email := "ann@x.com",
           enabled := true, deleted := false }) ∧
    createUser
      { users := [{ id := 1, name := "Ann", email := "ann@x.com",
                    enabled := true, deleted := false }],
        flags := [], assignments := [], nextUserId := 2, nextFlagId := 1 }
      "Bob" "ann@x.com" false = Except.error SvcError.emailAlreadyExists := by
  have h2 := (c5_amended_createUser emptyStore "Ann" "ann@x.com" true).2
    (by intro u hu; simp [emptyStore] at hu) "Bob" false
  exact ⟨(c5_amended_createUser _ "Bob" "ann@x.com" true).1.mpr
      ⟨{ id := 1, name := "Ann", email := "ann@x.com",
         enabled := true, deleted := false }, by simp, rfl, rfl⟩,
    h2.1, h2.2⟩

/-- Claim C8.  The pagination arithmetic, for every supplied `page` and
`pageSize` (negative values included): `GetOffset` defaults the page to 1
when it is below 1, defaults the page size to 10 when below 1 and clamps it
to 100 when above 100, and returns `(page-1)*pageSize` over those effective
values; `GetLimit` performs the same page-size normalisation;
`CalculateTotalPages` returns 0 when the page size is 0 and otherwise — for
the values that can actually reach it, a non-negative count and a positive
page size — the ceiling of `total / pageSize`. -/
theorem c8_pagination_arithmetic (page ps total : Int) :
    getOffset ⟨page, ps⟩ =
      (⟨if page < 1 then 1 else page,
        if ps < 1 then 10 else if ps > 100 then 100 else ps⟩,
       ((if page < 1 then 1 else page) - 1) *
         (if ps < 1 then 10 else if ps > 100 then 100 else ps)) ∧
    getLimit ⟨page, ps⟩ =
      (⟨page, if ps < 1 then 10 else if ps > 100 then 100 else ps⟩,
       if ps < 1 then 10 else if ps > 100 then 100 else ps) ∧
    calculateTotalPages total 0 = 0 ∧
    (0 ≤ total → 0 < ps →
      calculateTotalPages total ps = ⌈(total : ℚ) / (ps : ℚ)⌉) := by
  refine ⟨?_, ?_, rfl, ?_⟩
  · unfold getOffset
    by_cases h1 : page < 1 <;> by_cases h2 : ps < 1 <;> by_cases h3 : ps > 100 <;>
      simp [h1, h2, h3]
  · unfold getLimit
    by_cases h2 : ps < 1 <;> by_cases h3 : ps > 100 <;>
      simp [h2, h3]
  · intro htotal hpos
    have hps : 0 ≤ ps := le_of_lt hpos
    have hne : ps ≠ 0 := hpos.ne'
    have hbeq : (ps == 0) = false := by simp [hne]
    unfold calculateTotalPages
    rw [hbeq]
    simp only [Bool.false_eq_true, if_false]
    rw [Int.tdiv_eq_ediv htotal hps, Int.tmod_eq_emod htotal hps]
    have hadd := Int.ediv_add_emod total ps
    have hr0 : 0 ≤ total % ps := Int.emod_nonneg total hne
    have hrlt : total % ps < ps := Int.emod_lt_of_pos total hpos
    have hpsQ : (0 : ℚ) < (ps : ℚ) := by exact_mod_cast hpos
    by_cases hr : total % ps > 0
    · rw [if_pos hr, eq_comm, Int.ceil_eq_iff]
      constructor
      · push_cast
        rw [add_sub_cancel_right, lt_div_iff₀ hpsQ]
        have hlt : total / ps * ps < total := by
          rw [mul_comm]
          linarith [hadd, hr]
        exact_mod_cast hlt
      · rw [div_le_iff₀ hpsQ]
        have hle : total ≤ (total / ps + 1) * ps := by
          have hexp : (total / ps + 1) * ps = ps * (total / ps) + ps := by ring
          linarith [hadd, hrlt, hexp]
        exact_mod_cast hle
    · have hr0' : total % ps = 0 := le_antisymm (by omega) hr0
      rw [if_neg hr]
      have htotQ : (total : ℚ) / (ps : ℚ) = ((total / ps : Int) : ℚ) := by
        have htot : total = ps * (total / ps) := by linarith [hadd, hr0']
        conv_lhs => rw [htot]
        push_cast
        rw [mul_comm, mul_div_assoc, div_self hpsQ.ne', mul_one]
      rw [htotQ, Int.ceil_intCast]

/-- Witness for C8 at the spec's own figures — `page = 0` behaves as page 1,
`page_size = 500` is clamped to 100, 25 records at page size 10 give
3 pages — plus an out-of-range instance: a negative supplied page and page
size default to page 1 and page size 10. -/
theorem c8_witness :
    getOffset ⟨0, 500⟩ =
      (⟨if (0 : Int) < 1 then 1 else 0,
        if (500 : Int) < 1 then 10 else if (500 : Int) > 100 then 100 else 500⟩,
       ((if (0 : Int) < 1 then 1 else 0) - 1) *
         (if (500 : Int) < 1 then 10 else if (500 : Int) > 100 then 100 else 500)) ∧
    getLimit ⟨0, 500⟩ =
      (⟨0, if (500 : Int) < 1 then 10 else if (500 : Int) > 100 then 100 else 500⟩,
       if (500 : Int) < 1 then 10 else if (500 : Int) > 100 then 100 else 500) ∧
    calculateTotalPages 25 0 = 0 ∧
    calculateTotalPages 25 500 = ⌈(25 : ℚ) / ((500 : Int) : ℚ)⌉ ∧
    getOffset ⟨-3, -5⟩ =
      (⟨if (-3 : Int) < 1 then 1 else -3,
        if (-5 : Int) < 1 then 10 else if (-5 : Int) > 100 then 100 else -5⟩,
       ((if (-3 : Int) < 1 then 1 else -3) - 1) *
         (if (-5 : Int) < 1 then 10 else if (-5 : Int) > 100 then 100 else -5)) ∧
    calculateTotalPages 25 10 = 3 := by
  obtain ⟨h1, h2, h3, h4⟩ := c8_pagination_arithmetic 0 500 25
  exact ⟨h1, h2, h3, h4 (by decide) (by decide),
    (c8_pagination_arithmetic (-3) (-5) 25).1, rfl⟩

/-- `Save` on a live target row whose (possibly new) email no other row
holds: the update succeeds and rewrites exactly the live rows with the
target id. -/
theorem userRepoUpdate_apply (s : Store) (u0 newU : User)
    (hmem : u0 ∈ s.users) (hdel : u0.deleted = false) (hidEq : newU.id = u0.id)
    (hno : ∀ v ∈ s.users, v.id ≠ u0.id → v.email ≠ newU.email) :
    userRepoUpdate s newU =
      Except.ok { s with users := s.users.map (fun v =>
        if v.id == newU.id && !v.deleted then newU else v) } := by
  unfold userRepoUpdate
  have h1 : s.users.any (fun v => v.id == newU.id && !v.deleted) = true :=
    List.any_eq_true.mpr ⟨u0, hmem, by simp [hidEq, hdel]⟩
  have h2 : s.users.any (fun v => v.id != newU.id && v.email == newU.email) = false := by
    rw [List.any_eq_false]
    intro v hv hcontra
    simp only [Bool.and_eq_true, bne_iff_ne, beq_iff_eq] at hcontra
    exact hno v hv (by rw [hidEq] at hcontra; exact hcontra.1) hcontra.2
  rw [h1, h2]
  simp

/-- When every live user with the supplied email has the target id, the
update's email uniqueness check falls through to the rest of the operation
(a failed lookup also falls through, per `uniquenessCheckFlow`). -/
theorem emailCheckFlow_skip (s : Store) (id : Nat) (e : String)
    (next : Except SvcError (Store × User))
    (hno : ∀ v ∈ s.users, v.id ≠ id → v.email ≠ e) :
    uniquenessCheckFlow (userRepoGetByEmail s e) (fun other => other.id != id)
      SvcError.emailAlreadyExists next = next := by
  cases hl : userRepoGetByEmail s e with
  | error er => simp only [uniquenessCheckFlow_error]
  | ok w =>
    obtain ⟨hwmem, hwe, hwdel⟩ := userRepoGetByEmail_ok_mem hl
    have hwid : w.id = id := by
      by_contra hne
      exact hno w hwmem hne hwe
    simp only [uniquenessCheckFlow_ok]
    rw [if_neg (by simp [hwid])]

/-- Claim C7 counterexample.  Reachable state: `Ann` (id 1) is live, `Bob`
(id 2, email `b@x.com`) was created and then soft-deleted.  No non-deleted
user with a different id holds `b@x.com` (fourth conjunct), yet updating
Ann's email to `b@x.com` neither succeeds nor fails with the domain
already-exists error: the save hits the unique index, which still covers the
soft-deleted row, and the wrapped constraint error is returned. -/
theorem c7_counterexample :
    createUser emptyStore "Ann" "a@x.com" true =
      Except.ok
        ({ users := [{ id := 1, name := "Ann", email := "a@x.com",
                       enabled := true, deleted := false }],
           flags := [], assignments := [], nextUserId := 2, nextFlagId := 1 },
         { id := 1, name := "Ann", email := "a@x.com",
           enabled := true, deleted := false }) ∧
    createUser
      { users := [{ id := 1, name := "Ann", email := "a@x.com",
                    enabled := true, deleted := false }],
        flags := [], assignments := [], nextUserId := 2, nextFlagId := 1 }
      "Bob" "b@x.com" true =
      Except.ok
        ({ users := [{ id := 1, name := "Ann", email := "a@x.com",
                       enabled := true, deleted := false },
                     { id := 2, name := "Bob", email := "b@x.com",
                       enabled := true, deleted := false }],
           flags := [], assignments := [], nextUserId := 3, nextFlagId := 1 },
         { id := 2, name := "Bob", email := "b@x.com",
           enabled := true, deleted := false }) ∧
    deleteUser
      { users := [{ id := 1, name := "Ann", email := "a@x.com",
                    enabled := true, deleted := false },
                  { id := 2, name := "Bob", email := "b@x.com",
                    enabled := true, deleted := false }],
        flags := [], assignments := [], nextUserId := 3, nextFlagId := 1 } 2 =
      Except.ok
        { users := [{ id := 1, name := "Ann", email := "a@x.com",
                      enabled := true, deleted := false },
                    { id := 2, name := "Bob", email := "b@x.com",
                      enabled := true, deleted := true }],
          flags := [], assignments := [], nextUserId := 3, nextFlagId := 1 } ∧
    ({ users := [{ id := 1, name := "Ann", email := "a@x.com",
                   enabled := true, deleted := false },
                 { id := 2, name := "Bob", email := "b@x.com",
                   enabled := true, deleted := true }],
       flags := [], assignments := [], nextUserId := 3, nextFlagId := 1 } : Store).users.any
        (fun u => !u.deleted && u.id != 1 && u.email == "b@x.com") = false ∧
    updateUser
      { users := [{ id := 1, name := "Ann", email := "a@x.com",
                    enabled := true, deleted := false },
                  { id := 2, name := "Bob", email := "b@x.com",
                    enabled := true, deleted := true }],
        flags := [], assignments := [], nextUserId := 3, nextFlagId := 1 }
      1 { name := none, email := some "b@x.com", enabled := none } =
      Except.error (SvcError.wrapped RepoError.uniqueViolation) ∧
    SvcError.wrapped RepoError.uniqueViolation ≠ SvcError.emailAlreadyExists := by
  exact ⟨rfl, rfl, rfl, rfl, rfl, by decide⟩

/-- Claim C7, amended.  `UpdateUser` fails with the user-not-found error
when no live user carries the id.  For a live target: if an email is
supplied and the email lookup finds a live user with a different id, the
already-exists error is returned; and when no other row at all (live or
soft-deleted) holds the final email, the update succeeds, applying exactly
the fields present in the payload and leaving the id, the deletion mark,
every absent field, every other user row, the flags, the assignments and
the id counters unchanged.  (If a soft-deleted row holds the supplied
email, the save instead fails with the wrapped constraint error; see the
counterexample.) -/
theorem c7_updateUser_spec (s : Store) (id : Nat) (req : UpdateUserRequest) :
    ((∀ u ∈ s.users, u.id = id → u.deleted = true) →
      updateUser s id req = Except.error SvcError.userNotFound) ∧
    (∀ u0, userRepoGetByID s id = Except.ok u0 →
      (∀ e w, req.email = some e →
        userRepoGetByEmail s e = Except.ok w → w.id ≠ id →
        updateUser s id req = Except.error SvcError.emailAlreadyExists) ∧
      ((∀ v ∈ s.users, v.id ≠ id → v.email ≠ req.email.getD u0.email) →
        ∃ s' u', updateUser s id req = Except.ok (s', u') ∧
          u'.id = u0.id ∧ u'.deleted = u0.deleted ∧
          u'.name = req.name.getD u0.name ∧
          u'.email = req.email.getD u0.email ∧
          u'.enabled = req.enabled.getD u0.enabled ∧
          s'.flags = s.flags ∧ s'.assignments = s.assignments ∧
          s'.nextUserId = s.nextUserId ∧ s'.nextFlagId = s.nextFlagId ∧
          s'.users = s.users.map (fun v =>
            if v.id == u0.id && !v.deleted then u' else v))) := by
  constructor
  · intro h
    unfold updateUser
    rw [userRepoGetByID_eq_notFound s id h]
    rfl
  · intro u0 hu0
    obtain ⟨hmem, hid, hdel⟩ := userRepoGetByID_ok_mem hu0
    constructor
    · intro e w he hw hwid
      unfold updateUser
      rw [hu0]
      simp only [mapRepoErr_ok, he]
      rw [hw]
      simp only [uniquenessCheckFlow_ok]
      rw [if_pos (by simp [hwid])]
    · intro hno
      unfold updateUser
      rw [hu0]
      simp only [mapRepoErr_ok]
      obtain ⟨rn, re, ren⟩ := req
      dsimp only at hno ⊢
      cases re with
      | some e =>
        simp only [Option.getD_some] at hno
        dsimp only
        rw [emailCheckFlow_skip s id e _ hno]
        unfold updateUserFinish
        cases ren with
        | none =>
          dsimp only
          cases rn with
          | none =>
            dsimp only
            rw [userRepoUpdate_apply s u0]
            · simp only [wrapRepoErr_ok]
              exact ⟨_, _, rfl, rfl, rfl, rfl, rfl, rfl, rfl, rfl, rfl, rfl, rfl⟩
            · exact hmem
            · exact hdel
            · rfl
            · intro v hv hvne
              rw [hid] at hvne
              exact hno v hv hvne
          | some n =>
            dsimp only
            rw [userRepoUpdate_apply s u0]
            · simp only [wrapRepoErr_ok]
              exact ⟨_, _, rfl, rfl, rfl, rfl, rfl, rfl, rfl, rfl, rfl, rfl, rfl⟩
            · exact hmem
            · exact hdel
            · rfl
            · intro v hv hvne
              rw [hid] at hvne
              exact hno v hv hvne
        | some b =>
          dsimp only
          cases rn with
          | none =>
            dsimp only
            rw [userRepoUpdate_apply s u0]
            · simp only [wrapRepoErr_ok]
              exact ⟨_, _, rfl, rfl, rfl, rfl, rfl, rfl, rfl, rfl, rfl, rfl, rfl⟩
            · exact hmem
            · exact hdel
            · rfl
            · intro v hv hvne
              rw [hid] at hvne
              exact hno v hv hvne
          | some n =>
            dsimp only
            rw [userRepoUpdate_apply s u0]
            · simp only [wrapRepoErr_ok]
              exact ⟨_, _, rfl, rfl, rfl, rfl, rfl, rfl, rfl, rfl, rfl, rfl, rfl⟩
            · exact hmem
            · exact hdel
            · rfl
            · intro v hv hvne
              rw [hid] at hvne
              exact hno v hv hvne
      | none =>
        simp only [Option.getD_none] at hno
        dsimp only
        unfold updateUserFinish
        cases ren with
        | none =>
          dsimp only
          cases rn with
          | none =>
            dsimp only
            rw [userRepoUpdate_apply s u0]
            · simp only [wrapRepoErr_ok]
              exact ⟨_, _, rfl, rfl, rfl, rfl, rfl, rfl, rfl, rfl, rfl, rfl, rfl⟩
            · exact hmem
            · exact hdel
            · rfl
            · intro v hv hvne
              rw [hid] at hvne
              exact hno v hv hvne
          | some n =>
            dsimp only
            rw [userRepoUpdate_apply s u0]
            · simp only [wrapRepoErr_ok]
              exact ⟨_, _, rfl, rfl, rfl, rfl, rfl, rfl, rfl, rfl, rfl, rfl, rfl⟩
            · exact hmem
            · exact hdel
            · rfl
            · intro v hv hvne
              rw [hid] at hvne
              exact hno v hv hvne
        | some b =>
          dsimp only
          cases rn with
          | none =>
            dsimp only
            rw [userRepoUpdate_apply s u0]
            · simp only [wrapRepoErr_ok]
              exact ⟨_, _, rfl, rfl, rfl, rfl, rfl, rfl, rfl, rfl, rfl, rfl, rfl⟩
            · exact hmem
            · exact hdel
            · rfl
            · intro v hv hvne
              rw [hid] at hvne
              exact hno v hv hvne
          | some n =>
            dsimp only
            rw [userRepoUpdate_apply s u0]
            · simp only [wrapRepoErr_ok]
              exact ⟨_, _, rfl, rfl, rfl, rfl, rfl, rfl, rfl, rfl, rfl, rfl, rfl⟩
            · exact hmem
            · exact hdel
            · rfl
            · intro v hv hvne
              rw [hid] at hvne
              exact hno v hv hvne

/-- Witness for C6: user 1 and flag `beta` exist, nothing is assigned;
the unassign succeeds and returns the store unchanged. -/
theorem c6_witness :
    unassignFeatureFlagFromUser
      { users := [{ id := 1, name := "Ann", email := "ann@x.com",
                    enabled := true, deleted := false }],
        flags := [{ id := 1, key := "beta", description := "",
                    enabled := false, deleted := false }],
        assignments := [], nextUserId := 2, nextFlagId := 2 } 1 "beta" =
      Except.ok
        { users := [{ id := 1, name := "Ann", email := "ann@x.com",
                      enabled := true, deleted := false }],
          flags := [{ id := 1, key := "beta", description := "",
                      enabled := false, deleted := false }],
          assignments := [], nextUserId := 2, nextFlagId := 2 } :=
  c6_unassign_unassigned_pair _ 1 "beta"
    { id := 1, name := "Ann", email := "ann@x.com", enabled := true, deleted := false }
    { id := 1, key := "beta", description := "", enabled := false, deleted := false }
    rfl rfl rfl

/-- Witness for the amended C7 theorem: the not-found branch on a store
whose only user is soft-deleted, the already-exists branch against a second
live user's email, and (by direct evaluation) a successful name-only update
that touches no other field. -/
theorem c7_witness :
    updateUser
      { users := [{ id := 1, name := "Ann", email := "a@x.com",
                    enabled := true, deleted := true }],
        flags := [], assignments := [], nextUserId := 2, nextFlagId := 1 }
      1 { name := some "Anne", email := none, enabled := none } =
      Except.error SvcError.userNotFound ∧
    updateUser
      { users := [{ id := 1, name := "Ann", email := "a@x.com",
                    enabled := true, deleted := false },
                  { id := 2, name := "Carl", email := "c@x.com",
                    enabled := true, deleted := false }],
        flags := [], assignments := [], nextUserId := 3, nextFlagId := 1 }
      1 { name := none, email := some "c@x.com", enabled := none } =
      Except.error SvcError.emailAlreadyExists ∧
    updateUser
      { users := [{ id := 1, name := "Ann", email := "a@x.com",
                    enabled := true, deleted := false }],
        flags := [], assignments := [], nextUserId := 2, nextFlagId := 1 }
      1 { name := some "Anne", email := none, enabled := none } =
      Except.ok
        ({ users := [{ id := 1, name := "Anne", email := "a@x.com",
                       enabled := true, deleted := false }],
           flags := [], assignments := [], nextUserId := 2, nextFlagId := 1 },
         { id := 1, name := "Anne", email := "a@x.com",
           enabled := true, deleted := false }) := by
  refine ⟨(c7_updateUser_spec _ 1 _).1 (by intro u hu hid; simp at hu; simp [hu]),
    ((c7_updateUser_spec
      { users := [{ id := 1, name := "Ann", email := "a@x.com",
                    enabled := true, deleted := false },
                  { id := 2, name := "Carl", email := "c@x.com",
                    enabled := true, deleted := false }],
        flags := [], assignments := [], nextUserId := 3, nextFlagId := 1 }
      1 { name := none, email := some "c@x.com", enabled := none }).2
      { id := 1, name := "Ann", email := "a@x.com", enabled := true, deleted := false }
      rfl).1 "c@x.com"
      { id := 2, name := "Carl", email := "c@x.com", enabled := true, deleted := false }
      rfl rfl (by decide),
    rfl⟩
